import Mathlib

/-!
Verification of the PiCamWebStream backend camera pipeline.

The Rust sources under `src/backend/src/` are modelled by a shallow
embedding: byte buffers are `List Nat` (each entry a byte value),
`f32` arithmetic on small integer inputs is modelled exactly over `ℚ`,
and fallible functions return `Except String`.
-/

namespace PiCam

/-- Pixel formats negotiated by `V4l2Camera::new` (src/backend/src/camera/v4l2.rs). -/
inductive PixelFormat where
  | Mjpeg : PixelFormat
  | Yuyv : PixelFormat
deriving DecidableEq, Repr

/-- Rust `f32::round`: nearest integer, ties away from zero
(used by `yuv_to_rgb` via `r.round()`). -/
def rustRound (q : ℚ) : ℤ :=
  if 0 ≤ q then ⌊q + 1/2⌋ else ⌈q - 1/2⌉

/-- `clamp_u8` from src/backend/src/camera/v4l2.rs:
`value.max(0.0).min(255.0) as u8`.  The `as u8` cast truncates toward zero;
on the clamped nonnegative value this is the floor. -/
def clamp_u8 (value : ℚ) : ℕ :=
  ⌊max 0 (min value 255)⌋.toNat

/-- `yuv_to_rgb` from src/backend/src/camera/v4l2.rs: BT.601-style conversion,
each channel rounded then clamped. The decimal `f32` literals 1.402,
0.344_136, 0.714_136, 1.772 are modelled by the exact rationals they denote. -/
def yuv_to_rgb (y u v : ℚ) : ℕ × ℕ × ℕ :=
  let r := y + 1402/1000 * v
  let g := y - 344136/1000000 * u - 714136/1000000 * v
  let b := y + 1772/1000 * u
  (clamp_u8 (rustRound r : ℤ), clamp_u8 (rustRound g : ℤ), clamp_u8 (rustRound b : ℤ))

/-- Rust `frame.chunks_exact(4)`: the complete 4-byte macropixels of the
buffer, any remainder of fewer than 4 bytes dropped. -/
def chunksExact4 : List ℕ → List (ℕ × ℕ × ℕ × ℕ)
  | a :: b :: c :: d :: rest => (a, b, c, d) :: chunksExact4 rest
  | _ => []

/-- Body of the per-macropixel loop in `yuyv_to_jpeg`
(src/backend/src/camera/v4l2.rs lines 112-127): one macropixel
(Y0, U, Y1, V) yields six RGB bytes. -/
def macropixelToRgb (m : ℕ × ℕ × ℕ × ℕ) : List ℕ :=
  let y0 : ℚ := m.1
  let u : ℚ := (m.2.1 : ℚ) - 128
  let y1 : ℚ := m.2.2.1
  let v : ℚ := (m.2.2.2 : ℚ) - 128
  let p0 := yuv_to_rgb y0 u v
  let p1 := yuv_to_rgb y1 u v
  [p0.1, p0.2.1, p0.2.2, p1.1, p1.2.1, p1.2.2]

/-- `yuyv_to_jpeg` up to and including the RGB stage
(src/backend/src/camera/v4l2.rs lines 99-127): the length check followed by
the conversion loop over all complete macropixels. -/
def yuyv_to_jpeg_rgb (frame : List ℕ) (width height : ℕ) : Except String (List ℕ) :=
  let expected_len := width * height * 2
  if frame.length < expected_len then
    Except.error "YUYV frame length smaller than expected"
  else
    Except.ok ((chunksExact4 frame).map macropixelToRgb).flatten

/-- `ImageBuffer::from_vec` of the external `image` crate, as used at
src/backend/src/camera/v4l2.rs line 129.  Its documented contract
(`ImageBuffer::from_raw`): returns `None` exactly when the container is not
big enough for a width x height RGB8 image, i.e. it accepts any buffer of at
least `width*height*3` bytes and ignores any excess. -/
def imageBuffer_from_vec (width height : ℕ) (buf : List ℕ) : Option (List ℕ) :=
  if width * height * 3 ≤ buf.length then some buf else none

/-- `yuyv_to_jpeg` up to the construction of the RGB `ImageBuffer`
(src/backend/src/camera/v4l2.rs lines 99-130): RGB conversion followed by
`ImageBuffer::from_vec`, whose `None` is turned into the
"Failed to build RGB buffer from YUYV data" error by `.context`. -/
def yuyv_to_jpeg_buffer (frame : List ℕ) (width height : ℕ) : Except String (List ℕ) :=
  match yuyv_to_jpeg_rgb frame width height with
  | Except.error e => Except.error e
  | Except.ok rgb =>
    match imageBuffer_from_vec width height rgb with
    | some buf => Except.ok buf
    | none => Except.error "Failed to build RGB buffer from YUYV data"

/-! ### Device negotiation (`V4l2Camera::new`, src/backend/src/camera/v4l2.rs lines 28-72)

`rscam::Camera::start` talks to hardware, so it is a parameter of the model:
a function from the submitted configuration to success or an error string. -/

/-- `rscam::Config` fields used by `V4l2Camera::new`. -/
structure V4l2Config where
  interval : ℕ × ℕ
  resolution : ℕ × ℕ
  format : String
deriving DecidableEq, Repr

/-- `frame_rate.max(1.0).round() as u32` (src/backend/src/camera/v4l2.rs line 32). -/
def fpsOf (frame_rate : ℚ) : ℕ := (rustRound (max frame_rate 1)).toNat

/-- The configuration submitted for a given fourcc format: `interval: (1, fps.max(1))`,
the configured resolution, and the format. -/
def startConfig (fmt : String) (width height : ℕ) (frame_rate : ℚ) : V4l2Config :=
  { interval := (1, max (fpsOf frame_rate) 1)
    resolution := (width, height)
    format := fmt }

/-- `V4l2Camera::new`: try MJPG first; on failure retry YUYV with the same
interval and resolution; if both fail, fail with a message naming both causes.
The function returns the negotiated pixel format of the constructed instance. -/
def V4l2Camera_new (start : V4l2Config → Except String Unit)
    (width height : ℕ) (frame_rate : ℚ) : Except String PixelFormat :=
  match start (startConfig "MJPG" width height frame_rate) with
  | Except.ok _ => Except.ok PixelFormat.Mjpeg
  | Except.error err =>
    match start (startConfig "YUYV" width height frame_rate) with
    | Except.ok _ => Except.ok PixelFormat.Yuyv
    | Except.error second_err =>
      Except.error
        ("Failed to configure camera for MJPG (" ++ err ++ ") and YUYV ("
          ++ second_err ++ ")")

/-! ### Mock camera counter (src/backend/src/camera/mock.rs)

`MockCamera.capture_frame` takes the mutex on the shared counter, increments
it by one, and hands the observed value to the (externally encoded) frame
generator.  The mutex serialises concurrent callers, so any interleaving of
calls is a sequence of these atomic state transitions; the model threads the
state explicitly.  The JPEG bytes come from the external `image` encoder and
are not modelled; `capture_frame` returns the counter value it observed. -/

structure MockCamera where
  counter : ℕ
  width : ℕ
  height : ℕ
deriving DecidableEq, Repr

/-- `MockCamera::new` (src/backend/src/camera/mock.rs lines 21-27). -/
def MockCamera.new (width height : ℕ) : MockCamera :=
  { counter := 0, width := width, height := height }

/-- One `capture_frame` call (src/backend/src/camera/mock.rs lines 32-45):
the successor state and the counter value observed under the lock.  The
counter is a `u64`, so `*guard += 1` wraps modulo `2^64` (the release-build
semantics of the overflowing add; a debug build would panic instead). -/
def MockCamera.capture_frame (m : MockCamera) : MockCamera × ℕ :=
  ({ m with counter := (m.counter + 1) % 2 ^ 64 }, (m.counter + 1) % 2 ^ 64)

/-- The state after `n` serialised `capture_frame` calls. -/
def MockCamera.afterCalls (m : MockCamera) : ℕ → MockCamera
  | 0 => m
  | n + 1 => (MockCamera.afterCalls m n).capture_frame.1

/-! ### Stream chunk framing (`stream_handler`, src/backend/src/main.rs lines 67-103) -/

/-- ASCII bytes of a string literal. -/
def strBytes (s : String) : List ℕ := s.toList.map Char.toNat

/-- The chunk yielded for a successful capture
(src/backend/src/main.rs lines 76-84), with `boundary = "frame"`. -/
def successChunk (frame : List ℕ) : List ℕ :=
  strBytes "--frame\r\n"
    ++ strBytes "Content-Type: image/jpeg\r\n"
    ++ strBytes ("Content-Length: " ++ toString frame.length ++ "\r\n\r\n")
    ++ frame
    ++ strBytes "\r\n"

/-- The chunk yielded for a failed capture (src/backend/src/main.rs lines 85-92). -/
def errorChunk : List ℕ :=
  strBytes "--frame\r\n"
    ++ strBytes "Content-Type: text/plain\r\n\r\n"
    ++ strBytes "camera-error\r\n"

/-- The loop body of the stream: each tick's capture result yields exactly one
chunk, and the loop continues regardless of failures.  A finite prefix of the
infinite stream is modelled by the list of per-tick capture results. -/
def stream_handler_chunks (results : List (Except String (List ℕ))) : List (List ℕ) :=
  results.map fun r =>
    match r with
    | Except.ok frame => successChunk frame
    | Except.error _ => errorChunk

/-- Whether a tick's capture failed. -/
def captureFailed : Except String (List ℕ) → Bool
  | Except.ok _ => false
  | Except.error _ => true

/-! ### Helper lemmas -/

theorem clamp_u8_le_255 (q : ℚ) : clamp_u8 q ≤ 255 := by
  have h1 : max 0 (min q 255) ≤ (255 : ℚ) :=
    max_le (by norm_num) (min_le_right q 255)
  have h2 : ⌊max 0 (min q 255)⌋ ≤ (255 : ℤ) := by
    have := Int.floor_le_floor h1
    simpa using this
  calc clamp_u8 q = ⌊max 0 (min q 255)⌋.toNat := rfl
    _ ≤ (255 : ℤ).toNat := Int.toNat_le_toNat h2
    _ = 255 := rfl

theorem clamp_u8_of_ge (q : ℚ) (h : 255 ≤ q) : clamp_u8 q = 255 := by
  rw [clamp_u8, min_eq_right h, max_eq_right (by norm_num : (0:ℚ) ≤ 255)]
  norm_num
  decide

theorem clamp_u8_of_nonpos (q : ℚ) (h : q ≤ 0) : clamp_u8 q = 0 := by
  rw [clamp_u8, max_eq_left ((min_le_left q 255).trans h)]
  norm_num

theorem yuv_to_rgb_le_255 (y u v : ℚ) :
    (yuv_to_rgb y u v).1 ≤ 255 ∧ (yuv_to_rgb y u v).2.1 ≤ 255 ∧
      (yuv_to_rgb y u v).2.2 ≤ 255 :=
  ⟨clamp_u8_le_255 _, clamp_u8_le_255 _, clamp_u8_le_255 _⟩

theorem macropixelToRgb_length (m : ℕ × ℕ × ℕ × ℕ) :
    (macropixelToRgb m).length = 6 := rfl

theorem macropixelToRgb_mem_le (m : ℕ × ℕ × ℕ × ℕ) :
    ∀ c ∈ macropixelToRgb m, c ≤ 255 := by
  intro c hc
  simp only [macropixelToRgb, List.mem_cons, List.not_mem_nil, or_false] at hc
  rcases hc with h | h | h | h | h | h <;> subst h <;> exact clamp_u8_le_255 _

theorem chunksExact4_length : ∀ l : List ℕ, (chunksExact4 l).length = l.length / 4
  | [] => rfl
  | [_] => by simp [chunksExact4]
  | [_, _] => by simp [chunksExact4]
  | [_, _, _] => by simp [chunksExact4]
  | _ :: _ :: _ :: _ :: rest => by
    have ih := chunksExact4_length rest
    simp only [chunksExact4, List.length_cons, ih]
    omega

theorem flatten_map_macropixel_length :
    ∀ ms : List (ℕ × ℕ × ℕ × ℕ),
      ((ms.map macropixelToRgb).flatten).length = 6 * ms.length
  | [] => rfl
  | m :: rest => by
    simp only [List.map_cons, List.flatten_cons, List.length_append,
      macropixelToRgb_length, flatten_map_macropixel_length rest, List.length_cons]
    ring

theorem rgb_bytes_le_255 (ms : List (ℕ × ℕ × ℕ × ℕ)) :
    ∀ c ∈ (ms.map macropixelToRgb).flatten, c ≤ 255 := by
  intro c hc
  rw [List.mem_flatten] at hc
  obtain ⟨l, hl, hcl⟩ := hc
  rw [List.mem_map] at hl
  obtain ⟨m, _, rfl⟩ := hl
  exact macropixelToRgb_mem_le m c hcl

/-! ### C1 -/

/-- C1: a raw buffer of length exactly `width*height*2` passes the length
check and converts to an RGB buffer of exactly `width*height*3` bytes, every
channel in `[0,255]` — amended with the forced proviso that `width*height`
is even (a YUYV macropixel covers two pixels; for odd `width*height` the
final two bytes are dropped by `chunks_exact(4)` and the RGB buffer is
short, see the counterexample). -/
theorem C1_exact_length_conversion (frame : List ℕ) (width height : ℕ)
    (hlen : frame.length = width * height * 2)
    (heven : width * height % 2 = 0) :
    ∃ rgb, yuyv_to_jpeg_rgb frame width height = Except.ok rgb ∧
      rgb.length = width * height * 3 ∧ ∀ c ∈ rgb, c ≤ 255 := by
  have hnot : ¬ frame.length < width * height * 2 := by omega
  refine ⟨((chunksExact4 frame).map macropixelToRgb).flatten, ?_, ?_, ?_⟩
  · simp [yuyv_to_jpeg_rgb, hnot]
  · rw [flatten_map_macropixel_length, chunksExact4_length, hlen]
    omega
  · exact rgb_bytes_le_255 _

/-- Witness for C1 at a concrete input: a 2x1 frame of four bytes. -/
theorem C1_exact_length_conversion_witness :
    ∃ rgb, yuyv_to_jpeg_rgb [128, 128, 128, 128] 2 1 = Except.ok rgb ∧
      rgb.length = 2 * 1 * 3 ∧ ∀ c ∈ rgb, c ≤ 255 :=
  C1_exact_length_conversion [128, 128, 128, 128] 2 1 (by decide) (by decide)

/-- C1 as stated is false at width = height = 1: the 2-byte buffer passes the
length check but `chunks_exact(4)` drops it whole, so the RGB buffer has 0
bytes instead of 3. -/
theorem C1_counterexample :
    yuyv_to_jpeg_rgb [0, 0] 1 1 = Except.ok [] ∧
      ¬ ∃ rgb, yuyv_to_jpeg_rgb [0, 0] 1 1 = Except.ok rgb ∧
        rgb.length = 1 * 1 * 3 := by
  constructor
  · rfl
  · rintro ⟨rgb, h1, h2⟩
    have hrgb : ([] : List ℕ) = rgb := by
      have h0 : yuyv_to_jpeg_rgb [0, 0] 1 1 = Except.ok [] := rfl
      rw [h0] at h1
      exact Except.ok.inj h1
    rw [← hrgb] at h2
    simp at h2

/-! ### C2 -/

/-- C2: a raw buffer strictly shorter than `width*height*2` fails the length
check with the undersized-buffer error and yields no output buffer; nothing
is truncated or padded. -/
theorem C2_short_buffer_fails (frame : List ℕ) (width height : ℕ)
    (h : frame.length < width * height * 2) :
    yuyv_to_jpeg_rgb frame width height =
        Except.error "YUYV frame length smaller than expected" ∧
      yuyv_to_jpeg_buffer frame width height =
        Except.error "YUYV frame length smaller than expected" ∧
      ∀ rgb, yuyv_to_jpeg_rgb frame width height ≠ Except.ok rgb := by
  refine ⟨?_, ?_, ?_⟩
  · simp [yuyv_to_jpeg_rgb, h]
  · simp [yuyv_to_jpeg_buffer, yuyv_to_jpeg_rgb, h]
  · intro rgb hrgb
    simp [yuyv_to_jpeg_rgb, h] at hrgb

/-- Witness for C2: the empty buffer for a 1x1 resolution. -/
theorem C2_short_buffer_fails_witness :
    yuyv_to_jpeg_rgb [] 1 1 =
        Except.error "YUYV frame length smaller than expected" ∧
      yuyv_to_jpeg_buffer [] 1 1 =
        Except.error "YUYV frame length smaller than expected" ∧
      ∀ rgb, yuyv_to_jpeg_rgb [] 1 1 ≠ Except.ok rgb :=
  C2_short_buffer_fails [] 1 1 (by decide)

/-! ### C3 -/

/-- C3: each macropixel (Y0,U,Y1,V) yields two RGB pixels by the BT.601
formulas R = Y + 1.402(V-128), G = Y - 0.344136(U-128) - 0.714136(V-128),
B = Y + 1.772(U-128), each channel rounded to nearest then clamped (values
at or above 255 clamp to 255, values at or below 0 clamp to 0 — never
wrapped); and the 4x2 all-128 buffer converts to (128,128,128) per pixel,
within the claimed rounding tolerance of 1. -/
theorem C3_macropixel_formula :
    (∀ y0 u y1 v : ℕ, macropixelToRgb (y0, u, y1, v) =
      [clamp_u8 (rustRound ((y0 : ℚ) + 1402/1000 * ((v : ℚ) - 128)) : ℤ),
       clamp_u8 (rustRound ((y0 : ℚ) - 344136/1000000 * ((u : ℚ) - 128)
          - 714136/1000000 * ((v : ℚ) - 128)) : ℤ),
       clamp_u8 (rustRound ((y0 : ℚ) + 1772/1000 * ((u : ℚ) - 128)) : ℤ),
       clamp_u8 (rustRound ((y1 : ℚ) + 1402/1000 * ((v : ℚ) - 128)) : ℤ),
       clamp_u8 (rustRound ((y1 : ℚ) - 344136/1000000 * ((u : ℚ) - 128)
          - 714136/1000000 * ((v : ℚ) - 128)) : ℤ),
       clamp_u8 (rustRound ((y1 : ℚ) + 1772/1000 * ((u : ℚ) - 128)) : ℤ)]) ∧
    (∀ q : ℚ, clamp_u8 q ≤ 255) ∧
    (∀ q : ℚ, 255 ≤ q → clamp_u8 q = 255) ∧
    (∀ q : ℚ, q ≤ 0 → clamp_u8 q = 0) ∧
    yuyv_to_jpeg_rgb (List.replicate 16 128) 4 2 =
      Except.ok (List.replicate 24 128) ∧
    (∀ c ∈ (List.replicate 24 128 : List ℕ), 127 ≤ c ∧ c ≤ 129) := by
  refine ⟨fun y0 u y1 v => rfl, clamp_u8_le_255, clamp_u8_of_ge,
    clamp_u8_of_nonpos, ?_, by decide⟩
  norm_num [yuyv_to_jpeg_rgb, chunksExact4, macropixelToRgb, yuv_to_rgb,
    clamp_u8, rustRound, Int.ceil_neg, min_def, max_def, List.replicate]
  decide

/-- Witness for C3: the clamping clauses applied at concrete out-of-range
values, and the formula clause at a concrete macropixel. -/
theorem C3_macropixel_formula_witness :
    clamp_u8 300 = 255 ∧ clamp_u8 (-5) = 0 ∧
    macropixelToRgb (76, 84, 149, 43) =
      [clamp_u8 (rustRound ((76 : ℚ) + 1402/1000 * ((43 : ℚ) - 128)) : ℤ),
       clamp_u8 (rustRound ((76 : ℚ) - 344136/1000000 * ((84 : ℚ) - 128)
          - 714136/1000000 * ((43 : ℚ) - 128)) : ℤ),
       clamp_u8 (rustRound ((76 : ℚ) + 1772/1000 * ((84 : ℚ) - 128)) : ℤ),
       clamp_u8 (rustRound ((149 : ℚ) + 1402/1000 * ((43 : ℚ) - 128)) : ℤ),
       clamp_u8 (rustRound ((149 : ℚ) - 344136/1000000 * ((84 : ℚ) - 128)
          - 714136/1000000 * ((43 : ℚ) - 128)) : ℤ),
       clamp_u8 (rustRound ((149 : ℚ) + 1772/1000 * ((84 : ℚ) - 128)) : ℤ)] :=
  ⟨C3_macropixel_formula.2.2.1 300 (by norm_num),
   C3_macropixel_formula.2.2.2.1 (-5) (by norm_num),
   C3_macropixel_formula.1 76 84 149 43⟩

/-! ### C4 -/

/-- C4: the pixel conversion is deterministic — bit-identical raw buffers
with equal dimensions give bit-identical results, both at the RGB stage and
after the buffer-construction stage (the embedding is a pure function of its
inputs, as is the Rust source, which reads no other state). -/
theorem C4_deterministic (f g : List ℕ) (w1 w2 h1 h2 : ℕ)
    (hf : f = g) (hw : w1 = w2) (hh : h1 = h2) :
    yuyv_to_jpeg_rgb f w1 h1 = yuyv_to_jpeg_rgb g w2 h2 ∧
      yuyv_to_jpeg_buffer f w1 h1 = yuyv_to_jpeg_buffer g w2 h2 := by
  subst hf; subst hw; subst hh
  exact ⟨rfl, rfl⟩

/-- Witness for C4 at a concrete pair of identical invocations. -/
theorem C4_deterministic_witness :
    yuyv_to_jpeg_rgb [1, 2, 3, 4] 2 1 = yuyv_to_jpeg_rgb [1, 2, 3, 4] 2 1 ∧
      yuyv_to_jpeg_buffer [1, 2, 3, 4] 2 1 = yuyv_to_jpeg_buffer [1, 2, 3, 4] 2 1 :=
  C4_deterministic [1, 2, 3, 4] [1, 2, 3, 4] 2 2 1 1 (by decide) (by decide) (by decide)

/-! ### C5 -/

theorem strBytes_toList_infix (a e b : String) :
    e.toList <:+: (a ++ e ++ b).toList := by
  refine ⟨a.toList, b.toList, ?_⟩
  simp [String.toList, String.data_append]

/-- C5: `V4l2Camera::new` tries MJPG first (when MJPG starts, the format is
MJPG and the fallback is never consulted); on MJPG failure it retries YUYV
with the same interval and resolution; a successful fallback yields pixel
format YUYV; and when both fail, construction fails with a message that
contains both underlying causes. -/
theorem C5_negotiation (start : V4l2Config → Except String Unit)
    (width height : ℕ) (frame_rate : ℚ) :
    (start (startConfig "MJPG" width height frame_rate) = Except.ok () →
      V4l2Camera_new start width height frame_rate = Except.ok PixelFormat.Mjpeg) ∧
    ((startConfig "YUYV" width height frame_rate).resolution =
        (startConfig "MJPG" width height frame_rate).resolution ∧
      (startConfig "YUYV" width height frame_rate).interval =
        (startConfig "MJPG" width height frame_rate).interval) ∧
    (∀ e, start (startConfig "MJPG" width height frame_rate) = Except.error e →
      start (startConfig "YUYV" width height frame_rate) = Except.ok () →
      V4l2Camera_new start width height frame_rate = Except.ok PixelFormat.Yuyv) ∧
    (∀ e1 e2,
      start (startConfig "MJPG" width height frame_rate) = Except.error e1 →
      start (startConfig "YUYV" width height frame_rate) = Except.error e2 →
      ∃ msg, V4l2Camera_new start width height frame_rate = Except.error msg ∧
        e1.toList <:+: msg.toList ∧ e2.toList <:+: msg.toList) := by
  refine ⟨?_, ⟨rfl, rfl⟩, ?_, ?_⟩
  · intro h1
    simp [V4l2Camera_new, h1]
  · intro e h1 h2
    simp [V4l2Camera_new, h1, h2]
  · intro e1 e2 h1 h2
    refine ⟨"Failed to configure camera for MJPG (" ++ e1 ++ ") and YUYV ("
      ++ e2 ++ ")", ?_, ?_, ?_⟩
    · simp [V4l2Camera_new, h1, h2]
    · have := strBytes_toList_infix "Failed to configure camera for MJPG (" e1
        (") and YUYV (" ++ e2 ++ ")")
      simpa [String.toList, String.data_append, List.append_assoc] using this
    · have := strBytes_toList_infix
        ("Failed to configure camera for MJPG (" ++ e1 ++ ") and YUYV (") e2 ")"
      simpa [String.toList, String.data_append, List.append_assoc] using this

/-- Witness for C5: a simulated device rejecting MJPG but accepting YUYV
(construction yields the YUYV format), and one rejecting both (the error
message contains both causes). -/
theorem C5_negotiation_witness :
    V4l2Camera_new
        (fun cfg => if cfg.format = "MJPG" then Except.error "mjpg rejected"
          else Except.ok ()) 640 480 30 = Except.ok PixelFormat.Yuyv ∧
    ∃ msg, V4l2Camera_new
        (fun cfg => if cfg.format = "MJPG" then Except.error "mjpg rejected"
          else Except.error "yuyv rejected") 640 480 30 = Except.error msg ∧
      ("mjpg rejected").toList <:+: msg.toList ∧
      ("yuyv rejected").toList <:+: msg.toList :=
  ⟨(C5_negotiation _ 640 480 30).2.2.1 "mjpg rejected" rfl rfl,
   (C5_negotiation _ 640 480 30).2.2.2 "mjpg rejected" "yuyv rejected" rfl rfl⟩

/-! ### C6 -/

theorem capture_frame_counter (m : MockCamera) :
    m.capture_frame.1.counter = (m.counter + 1) % 2 ^ 64 := rfl

theorem afterCalls_counter (m : MockCamera) (hm : m.counter < 2 ^ 64) :
    ∀ n, (MockCamera.afterCalls m n).counter = (m.counter + n) % 2 ^ 64
  | 0 => by
    show m.counter = (m.counter + 0) % 2 ^ 64
    rw [Nat.add_zero, Nat.mod_eq_of_lt hm]
  | n + 1 => by
    simp only [MockCamera.afterCalls, MockCamera.capture_frame,
      afterCalls_counter m hm n]
    rw [Nat.mod_add_mod, Nat.add_assoc]

/-- C6, amended: each `capture_frame` call sets the 64-bit counter to
`(old + 1) % 2^64` — the (mutex-guarded, hence atomic) state transition of
the model — so the counter increases by exactly 1 per call and never
decreases over any serialised sequence of calls that keeps it below the
`u64` wrap point; at `u64::MAX` the release-build increment wraps to 0
(see the counterexample). -/
theorem C6_counter_monotone (m : MockCamera) (n k : ℕ)
    (hm : m.counter < 2 ^ 64) (hnk : n ≤ k) (hk : m.counter + k < 2 ^ 64) :
    m.capture_frame.1.counter = (m.counter + 1) % 2 ^ 64 ∧
    m.capture_frame.2 = (m.counter + 1) % 2 ^ 64 ∧
    (1 ≤ k → m.capture_frame.1.counter = m.counter + 1 ∧
      m.capture_frame.2 = m.counter + 1) ∧
    (MockCamera.afterCalls m n).counter = m.counter + n ∧
    (MockCamera.afterCalls m n).counter ≤ (MockCamera.afterCalls m k).counter := by
  have h1 : m.capture_frame.1.counter = (m.counter + 1) % 2 ^ 64 := rfl
  have hn : (MockCamera.afterCalls m n).counter = m.counter + n := by
    rw [afterCalls_counter m hm n, Nat.mod_eq_of_lt (by omega)]
  have hkk : (MockCamera.afterCalls m k).counter = m.counter + k := by
    rw [afterCalls_counter m hm k, Nat.mod_eq_of_lt (by omega)]
  refine ⟨h1, rfl, ?_, hn, ?_⟩
  · intro hk1
    have : m.counter + 1 < 2 ^ 64 := by omega
    constructor
    · rw [h1, Nat.mod_eq_of_lt this]
    · show (m.counter + 1) % 2 ^ 64 = m.counter + 1
      exact Nat.mod_eq_of_lt this
  · rw [hn, hkk]
    omega

/-- Witness for C6: a fresh 640x480 mock camera after 2 and after 5 calls. -/
theorem C6_counter_monotone_witness :
    (MockCamera.new 640 480).capture_frame.1.counter =
        ((MockCamera.new 640 480).counter + 1) % 2 ^ 64 ∧
    (MockCamera.new 640 480).capture_frame.2 =
        ((MockCamera.new 640 480).counter + 1) % 2 ^ 64 ∧
    (1 ≤ 5 → (MockCamera.new 640 480).capture_frame.1.counter =
        (MockCamera.new 640 480).counter + 1 ∧
      (MockCamera.new 640 480).capture_frame.2 =
        (MockCamera.new 640 480).counter + 1) ∧
    (MockCamera.afterCalls (MockCamera.new 640 480) 2).counter =
        (MockCamera.new 640 480).counter + 2 ∧
    (MockCamera.afterCalls (MockCamera.new 640 480) 2).counter ≤
        (MockCamera.afterCalls (MockCamera.new 640 480) 5).counter :=
  C6_counter_monotone (MockCamera.new 640 480) 2 5 (by norm_num [MockCamera.new])
    (by norm_num) (by norm_num [MockCamera.new])

/-- C6 as stated is false at the `u64` wrap point: starting from a fresh
camera, the counter after `2^64` successful calls is 0, strictly below its
value after `2^64 - 1` calls — the wrapping `+= 1` both fails to increment
by 1 and decreases the counter. -/
theorem C6_counterexample :
    (MockCamera.afterCalls (MockCamera.new 640 480) (2 ^ 64 - 1)).counter =
        2 ^ 64 - 1 ∧
    (MockCamera.afterCalls (MockCamera.new 640 480) (2 ^ 64)).counter = 0 ∧
    ¬ (MockCamera.afterCalls (MockCamera.new 640 480) (2 ^ 64 - 1)).counter ≤
        (MockCamera.afterCalls (MockCamera.new 640 480) (2 ^ 64)).counter ∧
    (MockCamera.afterCalls (MockCamera.new 640 480) (2 ^ 64 - 1)).capture_frame.1.counter ≠
        (MockCamera.afterCalls (MockCamera.new 640 480) (2 ^ 64 - 1)).counter + 1 := by
  have hm : (MockCamera.new 640 480).counter < 2 ^ 64 := by
    norm_num [MockCamera.new]
  have h1 := afterCalls_counter (MockCamera.new 640 480) hm (2 ^ 64 - 1)
  have h2 := afterCalls_counter (MockCamera.new 640 480) hm (2 ^ 64)
  have hc : (MockCamera.new 640 480).counter = 0 := rfl
  rw [hc] at h1 h2
  have e1 : (MockCamera.afterCalls (MockCamera.new 640 480) (2 ^ 64 - 1)).counter =
      2 ^ 64 - 1 := by
    rw [h1, Nat.zero_add, Nat.mod_eq_of_lt (by norm_num)]
  have e2 : (MockCamera.afterCalls (MockCamera.new 640 480) (2 ^ 64)).counter = 0 := by
    rw [h2, Nat.zero_add, Nat.mod_self]
  refine ⟨e1, e2, ?_, ?_⟩
  · rw [e1, e2]
    norm_num
  · rw [capture_frame_counter, e1]
    norm_num

/-! ### C7, C8, C9 -/

theorem strBytes_append (s t : String) :
    strBytes (s ++ t) = strBytes s ++ strBytes t := by
  simp [strBytes, String.toList, String.data_append]

theorem strBytes_blank_line :
    strBytes "\r\n\r\n" = strBytes "\r\n" ++ strBytes "\r\n" := by decide

/-- A success chunk and the error chunk differ within their first 37 bytes
(`image/jpeg` against `text/plain`), so no frame can make them collide. -/
theorem successChunk_ne_errorChunk (f : List ℕ) : successChunk f ≠ errorChunk := by
  intro h
  have hp1 : (strBytes "--frame\r\n" ++ strBytes "Content-Type: image/jpeg\r\n")
      <+: errorChunk := by
    rw [← h]
    exact ⟨strBytes ("Content-Length: " ++ toString f.length ++ "\r\n\r\n")
      ++ f ++ strBytes "\r\n", by simp [successChunk]⟩
  have hp2 : (strBytes "--frame\r\n" ++ strBytes "Content-Type: text/plain\r\n\r\n")
      <+: errorChunk :=
    ⟨strBytes "camera-error\r\n", by simp [errorChunk]⟩
  have hle : (strBytes "--frame\r\n" ++ strBytes "Content-Type: image/jpeg\r\n").length
      ≤ (strBytes "--frame\r\n" ++ strBytes "Content-Type: text/plain\r\n\r\n").length := by
    decide
  have := List.prefix_of_prefix_length_le hp1 hp2 hle
  exact absurd this (by decide)

/-- C7: each successful capture contributes exactly one chunk to the stream,
at its own tick position, and that chunk is, in order: the boundary line, the
image/jpeg content-type line, a Content-Length header whose value is the
decimal byte count of the frame, a blank line, the raw JPEG bytes, and a
trailing CRLF. -/
theorem C7_success_chunk (results : List (Except String (List ℕ))) (i : ℕ)
    (frame : List ℕ) (h : results[i]? = some (Except.ok frame)) :
    (stream_handler_chunks results)[i]? = some (successChunk frame) ∧
    successChunk frame =
      strBytes "--frame\r\n"
        ++ strBytes "Content-Type: image/jpeg\r\n"
        ++ (strBytes ("Content-Length: " ++ toString frame.length) ++ strBytes "\r\n")
        ++ strBytes "\r\n"
        ++ frame
        ++ strBytes "\r\n" := by
  constructor
  · rw [stream_handler_chunks, List.getElem?_map, h]
    rfl
  · simp [successChunk, strBytes_append, strBytes_blank_line, List.append_assoc]

/-- Witness for C7: a two-tick stream whose second capture succeeded. -/
theorem C7_success_chunk_witness :
    (stream_handler_chunks [Except.error "io", Except.ok [7, 7]])[1]? =
        some (successChunk [7, 7]) ∧
    successChunk [7, 7] =
      strBytes "--frame\r\n"
        ++ strBytes "Content-Type: image/jpeg\r\n"
        ++ (strBytes ("Content-Length: " ++ toString (List.length [7, 7]))
            ++ strBytes "\r\n")
        ++ strBytes "\r\n"
        ++ [7, 7]
        ++ strBytes "\r\n" :=
  C7_success_chunk [Except.error "io", Except.ok [7, 7]] 1 [7, 7] rfl

theorem stream_chunks_countP_error (results : List (Except String (List ℕ))) :
    ((stream_handler_chunks results).countP fun c => decide (c = errorChunk)) =
      results.countP captureFailed := by
  induction results with
  | nil => rfl
  | cons r rest ih =>
    cases r with
    | ok f =>
      simp only [stream_handler_chunks, List.map_cons, List.countP_cons] at *
      simp [ih, captureFailed, successChunk_ne_errorChunk f]
    | error e =>
      simp only [stream_handler_chunks, List.map_cons, List.countP_cons] at *
      simp [ih, captureFailed]

theorem countP_not_eq_errorChunk (l : List (List ℕ)) :
    (l.countP fun c => decide (¬ c = errorChunk)) =
      l.length - (l.countP fun c => decide (c = errorChunk)) := by
  simp only [decide_not]
  induction l with
  | nil => rfl
  | cons c rest ih =>
    have hle := List.countP_le_length (fun c => decide (c = errorChunk)) (l := rest)
    by_cases h : c = errorChunk
    · simp only [List.countP_cons, h, List.length_cons]
      simp
      omega
    · simp only [List.countP_cons, h, List.length_cons]
      simp [h]
      omega

/-- C8: on a failed tick the stream emits the text/plain `camera-error` chunk
and keeps ticking: over any 10 ticks of which exactly 1 fails, the output has
exactly 10 chunks — 1 error chunk and 9 success chunks — and the chunk at
each position is determined by the tick at the same position (order is
preserved, and ticks after the failure still produce their chunks). -/
theorem C8_failure_isolation (results : List (Except String (List ℕ)))
    (h10 : results.length = 10)
    (h1 : results.countP captureFailed = 1) :
    (stream_handler_chunks results).length = 10 ∧
    ((stream_handler_chunks results).countP fun c => decide (c = errorChunk)) = 1 ∧
    ((stream_handler_chunks results).countP fun c => decide (¬ c = errorChunk)) = 9 ∧
    (∀ (i : ℕ) (e : String), results[i]? = some (Except.error e) →
      (stream_handler_chunks results)[i]? = some errorChunk ∧
      errorChunk = strBytes "--frame\r\n"
        ++ strBytes "Content-Type: text/plain\r\n\r\n"
        ++ strBytes "camera-error\r\n") ∧
    (∀ (i : ℕ) (f : List ℕ), results[i]? = some (Except.ok f) →
      (stream_handler_chunks results)[i]? = some (successChunk f)) := by
  have hlen : (stream_handler_chunks results).length = 10 := by
    simp [stream_handler_chunks, h10]
  have herr : ((stream_handler_chunks results).countP
      fun c => decide (c = errorChunk)) = 1 := by
    rw [stream_chunks_countP_error, h1]
  refine ⟨hlen, herr, ?_, ?_, ?_⟩
  · rw [countP_not_eq_errorChunk, hlen, herr]
  · intro i e h
    refine ⟨?_, rfl⟩
    rw [stream_handler_chunks, List.getElem?_map, h]
    rfl
  · intro i f h
    rw [stream_handler_chunks, List.getElem?_map, h]
    rfl

/-- Witness for C8: 10 concrete ticks with the single failure at position 3. -/
theorem C8_failure_isolation_witness :
    (stream_handler_chunks [Except.ok [1], Except.ok [1], Except.ok [1],
        Except.error "io", Except.ok [1], Except.ok [1], Except.ok [1],
        Except.ok [1], Except.ok [1], Except.ok [1]]).length = 10 ∧
    ((stream_handler_chunks [Except.ok [1], Except.ok [1], Except.ok [1],
        Except.error "io", Except.ok [1], Except.ok [1], Except.ok [1],
        Except.ok [1], Except.ok [1], Except.ok [1]]).countP
      fun c => decide (c = errorChunk)) = 1 ∧
    ((stream_handler_chunks [Except.ok [1], Except.ok [1], Except.ok [1],
        Except.error "io", Except.ok [1], Except.ok [1], Except.ok [1],
        Except.ok [1], Except.ok [1], Except.ok [1]]).countP
      fun c => decide (¬ c = errorChunk)) = 9 ∧
    (∀ (i : ℕ) (e : String), [Except.ok [1], Except.ok [1], Except.ok [1],
        Except.error "io", Except.ok [1], Except.ok [1], Except.ok [1],
        Except.ok [1], Except.ok [1], Except.ok [1]][i]? =
          some (Except.error e) →
      (stream_handler_chunks [Except.ok [1], Except.ok [1], Except.ok [1],
        Except.error "io", Except.ok [1], Except.ok [1], Except.ok [1],
        Except.ok [1], Except.ok [1], Except.ok [1]])[i]? = some errorChunk ∧
      errorChunk = strBytes "--frame\r\n"
        ++ strBytes "Content-Type: text/plain\r\n\r\n"
        ++ strBytes "camera-error\r\n") ∧
    (∀ (i : ℕ) (f : List ℕ), [Except.ok [1], Except.ok [1], Except.ok [1],
        Except.error "io", Except.ok [1], Except.ok [1], Except.ok [1],
        Except.ok [1], Except.ok [1], Except.ok [1]][i]? =
          some (Except.ok f) →
      (stream_handler_chunks [Except.ok [1], Except.ok [1], Except.ok [1],
        Except.error "io", Except.ok [1], Except.ok [1], Except.ok [1],
        Except.ok [1], Except.ok [1], Except.ok [1]])[i]? =
          some (successChunk f)) :=
  C8_failure_isolation [Except.ok [1], Except.ok [1], Except.ok [1],
    Except.error "io", Except.ok [1], Except.ok [1], Except.ok [1],
    Except.ok [1], Except.ok [1], Except.ok [1]] (by decide) (by decide)

theorem strBytes_boundary_split :
    strBytes "--frame\r\n" = strBytes "--frame" ++ strBytes "\r\n" := by decide

theorem strBytes_ctype_split :
    strBytes "Content-Type: image/jpeg\r\n" =
      strBytes "Content-Type: image/jpeg" ++ strBytes "\r\n" := by decide

/-- C9, amended: every chunk carries the boundary marker, a content-type
line, a blank line, its payload and a trailing line break — but only success
chunks carry a length header; the `camera-error` chunk is emitted without
one. -/
theorem C9_chunk_parts (f : List ℕ) :
    (strBytes "--frame" <+: successChunk f ∧
     strBytes "Content-Type: image/jpeg" <:+: successChunk f ∧
     strBytes "Content-Length: " <:+: successChunk f ∧
     strBytes "\r\n\r\n" <:+: successChunk f ∧
     f <:+: successChunk f ∧
     strBytes "\r\n" <:+ successChunk f) ∧
    (strBytes "--frame" <+: errorChunk ∧
     strBytes "Content-Type: text/plain" <:+: errorChunk ∧
     strBytes "\r\n\r\n" <:+: errorChunk ∧
     strBytes "camera-error" <:+: errorChunk ∧
     strBytes "\r\n" <:+ errorChunk ∧
     ¬ strBytes "Content-Length" <:+: errorChunk) := by
  constructor
  · refine ⟨?_, ?_, ?_, ?_, ?_, ?_⟩
    · exact ⟨strBytes "\r\n" ++ strBytes "Content-Type: image/jpeg\r\n"
        ++ strBytes ("Content-Length: " ++ toString f.length ++ "\r\n\r\n")
        ++ f ++ strBytes "\r\n",
        by simp [successChunk, strBytes_boundary_split, List.append_assoc]⟩
    · exact ⟨strBytes "--frame\r\n", strBytes "\r\n"
        ++ strBytes ("Content-Length: " ++ toString f.length ++ "\r\n\r\n")
        ++ f ++ strBytes "\r\n",
        by simp [successChunk, strBytes_ctype_split, List.append_assoc]⟩
    · exact ⟨strBytes "--frame\r\n" ++ strBytes "Content-Type: image/jpeg\r\n",
        strBytes (toString f.length ++ "\r\n\r\n") ++ f ++ strBytes "\r\n",
        by simp [successChunk, strBytes_append, List.append_assoc]⟩
    · exact ⟨strBytes "--frame\r\n" ++ strBytes "Content-Type: image/jpeg\r\n"
        ++ strBytes ("Content-Length: " ++ toString f.length),
        f ++ strBytes "\r\n",
        by simp [successChunk, strBytes_append, List.append_assoc]⟩
    · exact ⟨strBytes "--frame\r\n" ++ strBytes "Content-Type: image/jpeg\r\n"
        ++ strBytes ("Content-Length: " ++ toString f.length ++ "\r\n\r\n"),
        strBytes "\r\n",
        by simp [successChunk, List.append_assoc]⟩
    · exact ⟨strBytes "--frame\r\n" ++ strBytes "Content-Type: image/jpeg\r\n"
        ++ strBytes ("Content-Length: " ++ toString f.length ++ "\r\n\r\n") ++ f,
        by simp [successChunk, List.append_assoc]⟩
  · refine ⟨?_, ?_, ?_, ?_, ?_, ?_⟩ <;> decide

/-- C9 as stated is false: the error chunk is emitted into the stream yet
contains no length header. -/
theorem C9_counterexample :
    stream_handler_chunks [Except.error "io failure"] = [errorChunk] ∧
      ¬ strBytes "Content-Length" <:+: errorChunk :=
  ⟨rfl, by decide⟩

/-! ### C10 -/

/-- C10, amended: for a raw buffer longer than `width*height*2` (with
`width*height` even), conversion never fails at the RGB-buffer-construction
stage.  Excess of fewer than 4 bytes is dropped by `chunks_exact(4)` and the
RGB buffer has exactly `width*height*3` bytes; each additional complete
macropixel adds 6 more RGB bytes, and `ImageBuffer::from_vec` accepts any
buffer of at least `width*height*3` bytes, so construction still succeeds
(contrary to the claim that it fails). -/
theorem C10_oversized_buffers (frame : List ℕ) (width height e : ℕ)
    (hlen : frame.length = width * height * 2 + e)
    (heven : width * height % 2 = 0) :
    ∃ rgb, yuyv_to_jpeg_rgb frame width height = Except.ok rgb ∧
      rgb.length = 6 * (frame.length / 4) ∧
      width * height * 3 ≤ rgb.length ∧
      imageBuffer_from_vec width height rgb = some rgb ∧
      yuyv_to_jpeg_buffer frame width height = Except.ok rgb ∧
      (e < 4 → rgb.length = width * height * 3) := by
  have hnot : ¬ frame.length < width * height * 2 := by omega
  have hok : yuyv_to_jpeg_rgb frame width height =
      Except.ok ((chunksExact4 frame).map macropixelToRgb).flatten := by
    simp [yuyv_to_jpeg_rgb, hnot]
  have hlen6 : ((chunksExact4 frame).map macropixelToRgb).flatten.length =
      6 * (frame.length / 4) := by
    rw [flatten_map_macropixel_length, chunksExact4_length]
  have hge : width * height * 3 ≤
      ((chunksExact4 frame).map macropixelToRgb).flatten.length := by
    rw [hlen6, hlen]; omega
  have hvec : imageBuffer_from_vec width height
      ((chunksExact4 frame).map macropixelToRgb).flatten =
      some ((chunksExact4 frame).map macropixelToRgb).flatten := by
    rw [imageBuffer_from_vec, if_pos hge]
  refine ⟨_, hok, hlen6, hge, hvec, ?_, ?_⟩
  · have hmatch : yuyv_to_jpeg_buffer frame width height =
        match imageBuffer_from_vec width height
            ((chunksExact4 frame).map macropixelToRgb).flatten with
        | some buf => Except.ok buf
        | none => Except.error "Failed to build RGB buffer from YUYV data" := by
      rw [yuyv_to_jpeg_buffer, hok]
    rw [hmatch, hvec]
  · intro he4
    rw [hlen6, hlen]
    omega

/-- Witness for C10: a 2x1 frame with one excess byte. -/
theorem C10_oversized_buffers_witness :
    ∃ rgb, yuyv_to_jpeg_rgb [128, 128, 128, 128, 0] 2 1 = Except.ok rgb ∧
      rgb.length = 6 * (List.length [128, 128, 128, 128, 0] / 4) ∧
      2 * 1 * 3 ≤ rgb.length ∧
      imageBuffer_from_vec 2 1 rgb = some rgb ∧
      yuyv_to_jpeg_buffer [128, 128, 128, 128, 0] 2 1 = Except.ok rgb ∧
      (1 < 4 → rgb.length = 2 * 1 * 3) :=
  C10_oversized_buffers [128, 128, 128, 128, 0] 2 1 1 (by decide) (by decide)

/-- C10 as stated is false: a 2x1 buffer with two whole excess macropixels
(8 extra bytes) still converts successfully — the oversized RGB vector is
accepted by the buffer construction, not rejected. -/
theorem C10_counterexample :
    yuyv_to_jpeg_buffer (List.replicate 12 0) 2 1 =
      Except.ok [0, 135, 0, 0, 135, 0, 0, 135, 0, 0, 135, 0, 0, 135, 0, 0, 135, 0] := by
  norm_num [yuyv_to_jpeg_buffer, yuyv_to_jpeg_rgb, imageBuffer_from_vec, chunksExact4,
    macropixelToRgb, yuv_to_rgb, clamp_u8, rustRound,
    Int.ceil_neg, min_def, max_def, List.replicate]
  decide

end PiCam
